import Mathlib

/-
Verification of the FEC election bot's lifecycle and tabulation engine
(source: bot.py).  The Postgres tables (elections, candidates, ballots,
election_certifications) are embedded as Lean lists of records, and each
slash-command handler's database effect is embedded as a pure function on
that state.  Timestamps, Discord identities beyond numeric ids, and the
message/UI layer are outside the modelled state; floating-point
percentages are modelled over the rationals.
-/

namespace FEC

/-- Python str.upper for the ASCII status/state strings used by the bot. -/
def pyUpper (s : String) : String :=
  String.mk (s.data.map Char.toUpper)

/-- Outcome reported to the caller of an operation, per the error
taxonomy of the spec.  The bot reports these as Discord messages; each
handler's messages are mapped to the corresponding kind. -/
inductive OpResult where
  | success
  | notFoundError
  | lockedError
  | invalidStateError
  | validationError
  | duplicateError
  | alreadyReviewedError
deriving DecidableEq, Repr

/-- Row of the elections table. -/
structure Election where
  election_id : String
  election_type : String
  include_house : Bool
  include_senate : Bool
  include_pres : Bool
  status : String
deriving DecidableEq, Repr

/-- Row of the candidates table. -/
structure Candidate where
  candidate_id : Int
  election_id : String
  office : String
  rp_name : String
  party : String
  state : Option String
  district : Option Int
deriving DecidableEq, Repr

/-- Row of the ballots table. -/
structure Ballot where
  ballot_id : Int
  election_id : String
  voter_id : Int
  house_choices : List Int
  senate_choices : List Int
  pres_choice : Option Int
  status : String
  reviewed_by : Option Int
  reject_reason : Option String
deriving DecidableEq, Repr

/-- Frozen per-office result listing stored inside a certification row
(snapshot_office in bot.py). -/
structure OfficeSnapshot where
  office : String
  total_votes : Nat
  results : List (String × Nat × ℚ)
deriving DecidableEq, Repr

/-- Row of the election_certifications table (PRIMARY KEY election_id). -/
structure Certification where
  election_id : String
  certified_by : Int
  submitted_ballots : Nat
  accepted_ballots : Nat
  house_snapshot : Option OfficeSnapshot
  senate_snapshot : Option OfficeSnapshot
  pres_snapshot : Option OfficeSnapshot
  notes : Option String
deriving DecidableEq, Repr

/-- The durable store: the four relations of the schema (ensure_schema). -/
structure DB where
  elections : List Election
  candidates : List Candidate
  ballots : List Ballot
  certifications : List Certification
deriving DecidableEq, Repr

/-- SELECT * FROM elections WHERE election_id=$1 (fetch_election). -/
def fetch_election (db : DB) (eid : String) : Option Election :=
  db.elections.find? (fun e => e.election_id == eid)

/-- UPDATE elections SET status=$2 WHERE election_id=$1. -/
def setElectionStatus (db : DB) (eid st : String) : DB :=
  { db with
    elections := db.elections.map fun e =>
      if e.election_id == eid then { e with status := st } else e }

/-- HOUSE_MAX_PICKS. -/
def HOUSE_MAX_PICKS : Nat := 3

/-- SENATE_MAX_PICKS. -/
def SENATE_MAX_PICKS : Nat := 2

/-- DISCORD_MESSAGE_LIMIT. -/
def DISCORD_MESSAGE_LIMIT : Nat := 2000

/-- STATE_CODES. -/
def STATE_CODES : List String :=
  ["AL", "AK", "AZ", "AR", "CA", "CO", "CT", "DE", "FL", "GA",
   "HI", "ID", "IL", "IN", "IA", "KS", "KY", "LA", "ME", "MD",
   "MA", "MI", "MN", "MS", "MO", "MT", "NE", "NV", "NH", "NJ",
   "NM", "NY", "NC", "ND", "OH", "OK", "OR", "PA", "RI", "SC",
   "SD", "TN", "TX", "UT", "VT", "VA", "WA", "WV", "WI", "WY"]

/-- Python truthiness of an optional string (None and "" are falsy). -/
def truthyStr (s : Option String) : Bool :=
  match s with
  | none => false
  | some v => !(v == "")

/-- Python truthiness of an optional int (None and 0 are falsy). -/
def truthyInt (d : Option Int) : Bool :=
  match d with
  | none => false
  | some v => !(v == 0)

/-- Python format spec 02d (zero-pad to width two). -/
def pad2 (d : Int) : String :=
  if 0 ≤ d ∧ d < 10 then "0" ++ toString d else toString d

/-- candidate_label from bot.py: deterministic office-specific rendering. -/
def candidate_label (office rp_name party : String) (state : Option String)
    (district : Option Int) : String :=
  if office == "HOUSE" && truthyStr state && truthyInt district then
    rp_name ++ " (" ++ party ++ ") — " ++ state.getD "" ++ "-" ++ pad2 (district.getD 0)
  else if office == "SENATE" && truthyStr state then
    rp_name ++ " (" ++ party ++ ") — " ++ state.getD "" ++ " SEN"
  else if office == "PRESIDENT" then
    rp_name ++ " (" ++ party ++ ") — POTUS"
  else
    rp_name ++ " (" ++ party ++ ")"

/-- reporting_stats from bot.py: submitted count, accepted count, and the
accepted/submitted percentage (0.0 when submitted is 0). -/
def reporting_stats (db : DB) (eid : String) : Nat × Nat × ℚ :=
  let submitted := (db.ballots.filter fun b => b.election_id == eid).length
  let accepted :=
    (db.ballots.filter fun b => b.election_id == eid && b.status == "ACCEPTED").length
  (submitted, accepted,
    if submitted = 0 then 0 else (accepted : ℚ) / (submitted : ℚ) * 100)

/-- The GROUP BY key of the office_results queries:
(c.rp_name, c.party, c.state, c.district). -/
structure GroupKey where
  rp_name : String
  party : String
  state : Option String
  district : Option Int
deriving DecidableEq, Repr

/-- JOIN candidates c ON c.candidate_id = cid (candidate_id is the
primary key, so at most one row matches). -/
def candidateById (db : DB) (cid : Int) : Option Candidate :=
  db.candidates.find? (fun c => c.candidate_id == cid)

/-- The selections an office draws from one ballot: the unnested
house_choices / senate_choices array, or the single pres_choice. -/
def ballotOfficeSelections (office : String) (b : Ballot) : List Int :=
  if office == "PRESIDENT" then
    match b.pres_choice with
    | some c => [c]
    | none => []
  else if office == "HOUSE" then b.house_choices
  else b.senate_choices

/-- WHERE b.election_id=$1 AND b.status='ACCEPTED'. -/
def acceptedBallots (db : DB) (eid : String) : List Ballot :=
  db.ballots.filter fun b => b.election_id == eid && b.status == "ACCEPTED"

/-- The joined rows of the office_results query before grouping: one
candidate row per (accepted ballot, selection) pair whose selection
resolves to a candidate of the requested office. -/
def officeRows (db : DB) (eid office : String) : List Candidate :=
  ((acceptedBallots db eid).map fun b =>
    (ballotOfficeSelections office b).filterMap fun cid =>
      match candidateById db cid with
      | some c => if c.office == office then some c else none
      | none => none).flatten

/-- GROUP BY key of a joined candidate row. -/
def keyOf (c : Candidate) : GroupKey :=
  { rp_name := c.rp_name, party := c.party, state := c.state, district := c.district }

/-- GROUP BY c.rp_name, c.party, c.state, c.district with COUNT(*). -/
def officeGroups (db : DB) (eid office : String) : List (GroupKey × Nat) :=
  let keys := (officeRows db eid office).map keyOf
  keys.dedup.map fun k => (k, keys.count k)

/-- ORDER BY votes DESC, c.rp_name ASC. -/
def resultOrder (a b : GroupKey × Nat) : Prop :=
  b.2 < a.2 ∨ (a.2 = b.2 ∧ a.1.rp_name ≤ b.1.rp_name)

instance : DecidableRel resultOrder := fun a b =>
  decidable_of_iff
    (b.2 < a.2 ∨ (a.2 = b.2 ∧ a.1.rp_name.toList ≤ b.1.rp_name.toList))
    (by rw [← String.le_iff_toList_le]; exact Iff.rfl)

instance : IsTotal (GroupKey × Nat) resultOrder := by
  constructor
  intro a b
  rcases Nat.lt_trichotomy a.2 b.2 with h | h | h
  · exact Or.inr (Or.inl h)
  · rcases le_total a.1.rp_name b.1.rp_name with hn | hn
    · exact Or.inl (Or.inr ⟨h, hn⟩)
    · exact Or.inr (Or.inr ⟨h.symm, hn⟩)
  · exact Or.inl (Or.inl h)

instance : IsTrans (GroupKey × Nat) resultOrder := by
  constructor
  intro a b c hab hbc
  rcases hab with h1 | ⟨h1, h1n⟩
  · rcases hbc with h2 | ⟨h2, _⟩
    · exact Or.inl (h2.trans h1)
    · exact Or.inl (by rw [← h2]; exact h1)
  · rcases hbc with h2 | ⟨h2, h2n⟩
    · exact Or.inl (by rw [h1]; exact h2)
    · exact Or.inr ⟨h1.trans h2, le_trans h1n h2n⟩

/-- The grouped rows in the order the query returns them. -/
def sortedGroups (db : DB) (eid office : String) : List (GroupKey × Nat) :=
  (officeGroups db eid office).insertionSort resultOrder

/-- The (label, votes, pct) entry reported for one grouped row; pct is
votes/total*100, or 0.0 when total is 0. -/
def renderResult (office : String) (total : Nat) (r : GroupKey × Nat) :
    String × Nat × ℚ :=
  (candidate_label office r.1.rp_name r.1.party r.1.state r.1.district, r.2,
   if total = 0 then 0 else (r.2 : ℚ) / (total : ℚ) * 100)

/-- office_results from bot.py: the ordered (label, votes, pct) list and
the office vote total. -/
def office_results (db : DB) (eid office : String) :
    List (String × Nat × ℚ) × Nat :=
  let recs := sortedGroups db eid office
  let total : Nat := (recs.map fun r => r.2).sum
  (recs.map (renderResult office total), total)

/-- Python round(x, 2) (half-to-even float rounding approximated by
rational rounding to two decimal places). -/
def round2 (q : ℚ) : ℚ :=
  ((round (q * 100) : ℤ) : ℚ) / 100

/-- snapshot_office from bot.py. -/
def snapshot_office (db : DB) (eid office : String) : OfficeSnapshot :=
  let r := office_results db eid office
  { office := office
    total_votes := r.2
    results := r.1.map fun e => (e.1, e.2.1, round2 e.2.2) }

/-- begin_election: INSERT a DRAFT election; the elections PRIMARY KEY
raises UniqueViolationError on an existing id. -/
def begin_election (db : DB) (eid etype : String)
    (incHouse incSenate incPres : Bool) : DB × OpResult :=
  if db.elections.any (fun e => e.election_id == eid) then
    (db, .duplicateError)
  else
    ({ db with
       elections := db.elections ++
         [{ election_id := eid, election_type := etype,
            include_house := incHouse, include_senate := incSenate,
            include_pres := incPres, status := "DRAFT" }] },
     .success)

/-- Surrogate key for a freshly inserted candidate row (SERIAL). -/
def nextCandidateId (db : DB) : Int :=
  (db.candidates.length : Int) + 1

/-- Python: state.strip().upper() if state else None. -/
def normalizeState (state : Option String) : Option String :=
  match state with
  | none => none
  | some s => if s == "" then none else some (pyUpper s.trim)

/-- add_candidate handler from bot.py: guards in source order
(missing election, CERTIFIED lock, state validation, district
validation, uniqueness of (election_id, office, rp_name)). -/
def add_candidate (db : DB) (eid office rp_name party : String)
    (state : Option String) (district : Option Int) : DB × OpResult :=
  match fetch_election db eid with
  | none => (db, .notFoundError)
  | some e =>
    if pyUpper e.status == "CERTIFIED" then (db, .lockedError)
    else
      let state_val := normalizeState state
      if (office == "HOUSE" || office == "SENATE") && !truthyStr state_val then
        (db, .validationError)
      else if (office == "HOUSE" || office == "SENATE")
          && !(STATE_CODES.contains (state_val.getD "")) then
        (db, .validationError)
      else if office == "HOUSE"
          && (match district with
              | none => true
              | some d => decide (d < 1)) then
        (db, .validationError)
      else
        let district2 := if office == "HOUSE" then district else none
        if db.candidates.any (fun c =>
            c.election_id == eid && c.office == office && c.rp_name == rp_name) then
          (db, .duplicateError)
        else
          ({ db with
             candidates := db.candidates ++
               [{ candidate_id := nextCandidateId db, election_id := eid,
                  office := office, rp_name := rp_name, party := party,
                  state := state_val, district := district2 }] },
           .success)

/-- election_open handler: CERTIFIED is locked, OPEN is a no-op success,
anything else is updated to OPEN. -/
def election_open (db : DB) (eid : String) : DB × OpResult :=
  match fetch_election db eid with
  | none => (db, .notFoundError)
  | some e =>
    if pyUpper e.status == "CERTIFIED" then (db, .lockedError)
    else if e.status == "OPEN" then (db, .success)
    else (setElectionStatus db eid "OPEN", .success)

/-- election_close handler: CERTIFIED is locked, CLOSED is a no-op
success, anything else is updated to CLOSED. -/
def election_close (db : DB) (eid : String) : DB × OpResult :=
  match fetch_election db eid with
  | none => (db, .notFoundError)
  | some e =>
    if pyUpper e.status == "CERTIFIED" then (db, .lockedError)
    else if e.status == "CLOSED" then (db, .success)
    else (setElectionStatus db eid "CLOSED", .success)

/-- on_house_change from VoteView.__init__: deduplicate the submitted
values preserving first-occurrence order, then keep the first
HOUSE_MAX_PICKS. -/
def dedupFirst (values : List Int) : List Int :=
  values.foldl (fun uniq v => if uniq.contains v then uniq else uniq ++ [v]) []

/-- House selection handler: dedup then truncate to HOUSE_MAX_PICKS. -/
def on_house_change (values : List Int) : List Int :=
  (dedupFirst values).take HOUSE_MAX_PICKS

/-- Senate selection handler: dedup then truncate to SENATE_MAX_PICKS. -/
def on_senate_change (values : List Int) : List Int :=
  (dedupFirst values).take SENATE_MAX_PICKS

/-- Surrogate key for a freshly inserted ballot row (BIGSERIAL). -/
def nextBallotId (db : DB) : Int :=
  (db.ballots.length : Int) + 1

/-- The empty-ballot guard of VoteView.SubmitButton.callback: every
enabled office has no selection. -/
def ballotEmptyAll (e : Election) (house_selected senate_selected : List Int)
    (pres_selected : Option Int) : Bool :=
  (!e.include_house || house_selected.length == 0)
    && (!e.include_senate || senate_selected.length == 0)
    && (!e.include_pres || pres_selected.isNone)

/-- The body of VoteView.SubmitButton.callback once the election row is
fetched: guards in source order (polls not OPEN, empty ballot, then the
INSERT whose UNIQUE (election_id, voter_id) constraint raises
UniqueViolationError for a second ballot by the same voter). -/
def submit_ballot_checked (db : DB) (eid : String) (voterId : Int)
    (house_selected senate_selected : List Int) (pres_selected : Option Int)
    (e : Election) : DB × OpResult :=
  if !(pyUpper e.status == "OPEN") then (db, .invalidStateError)
  else if ballotEmptyAll e house_selected senate_selected pres_selected then
    (db, .validationError)
  else if db.ballots.any (fun b =>
      b.election_id == eid && b.voter_id == voterId) then
    (db, .duplicateError)
  else
    ({ db with
       ballots := db.ballots ++
         [{ ballot_id := nextBallotId db, election_id := eid,
            voter_id := voterId, house_choices := house_selected,
            senate_choices := senate_selected, pres_choice := pres_selected,
            status := "PENDING", reviewed_by := none, reject_reason := none }] },
     .success)

/-- VoteView.SubmitButton.callback from bot.py: fetch the election (a
missing election is reported), then run the guarded insert. -/
def submit_ballot (db : DB) (eid : String) (voterId : Int)
    (house_selected senate_selected : List Int) (pres_selected : Option Int) :
    DB × OpResult :=
  match fetch_election db eid with
  | none => (db, .notFoundError)
  | some e =>
    submit_ballot_checked db eid voterId house_selected senate_selected
      pres_selected e

/-- The end-to-end voting flow: the selection handlers normalise the
raw dropdown values, then the submit handler stores them. -/
def cast_ballot (db : DB) (eid : String) (voterId : Int)
    (houseValues senateValues : List Int) (presValue : Option Int) :
    DB × OpResult :=
  submit_ballot db eid voterId (on_house_change houseValues)
    (on_senate_change senateValues) presValue

/-- ReviewView.accept from bot.py: UPDATE ballots SET status='ACCEPTED',
reviewed_by, reject_reason=NULL WHERE ballot_id=$1 AND status='PENDING';
the handler then unconditionally reports the accepted message, so the
outcome is success regardless of how many rows the UPDATE touched. -/
def review_accept (db : DB) (bid reviewerId : Int) : DB × OpResult :=
  ({ db with
     ballots := db.ballots.map fun b =>
       if b.ballot_id == bid && b.status == "PENDING" then
         { b with status := "ACCEPTED", reviewed_by := some reviewerId,
                  reject_reason := none }
       else b },
   .success)

/-- RejectModal.on_submit from bot.py: UPDATE ballots SET
status='REJECTED', reviewed_by, reviewed_at, reject_reason WHERE
ballot_id=$1 AND status='PENDING'; the handler then unconditionally
reports the rejected message. -/
def review_reject (db : DB) (bid reviewerId : Int) (reason : String) :
    DB × OpResult :=
  ({ db with
     ballots := db.ballots.map fun b =>
       if b.ballot_id == bid && b.status == "PENDING" then
         { b with status := "REJECTED", reviewed_by := some reviewerId,
                  reject_reason := some reason }
       else b },
   .success)

/-- The certification row computed by election_certify before its two
writes: reporting_stats counts plus a snapshot for each included office. -/
def mkCert (db : DB) (e : Election) (byId : Int) (notes : Option String) :
    Certification :=
  let stats := reporting_stats db e.election_id
  { election_id := e.election_id
    certified_by := byId
    submitted_ballots := stats.1
    accepted_ballots := stats.2.1
    house_snapshot :=
      if e.include_house then some (snapshot_office db e.election_id "HOUSE") else none
    senate_snapshot :=
      if e.include_senate then some (snapshot_office db e.election_id "SENATE") else none
    pres_snapshot :=
      if e.include_pres then some (snapshot_office db e.election_id "PRESIDENT") else none
    notes := notes }

/-- INSERT INTO election_certifications ... ON CONFLICT (election_id)
DO UPDATE SET every field to the excluded row. -/
def upsertCert (db : DB) (c : Certification) : DB :=
  if db.certifications.any (fun x => x.election_id == c.election_id) then
    { db with
      certifications := db.certifications.map fun x =>
        if x.election_id == c.election_id then c else x }
  else
    { db with certifications := db.certifications ++ [c] }

/-- The two database writes of election_certify, in source order: the
snapshot upsert, then UPDATE elections SET status='CERTIFIED'.  The
source issues them as two separate pool.execute calls with no enclosing
transaction, so a crash can stop after any prefix of this list. -/
def certifySteps (db : DB) (e : Election) (byId : Int) (notes : Option String) :
    List (DB → DB) :=
  [fun d => upsertCert d (mkCert db e byId notes),
   fun d => setElectionStatus d e.election_id "CERTIFIED"]

/-- Run a sequence of database writes left to right. -/
def applySteps (db : DB) (steps : List (DB → DB)) : DB :=
  steps.foldl (fun d f => f d) db

/-- The state reached when execution stops after the first n writes of
election_certify (crash semantics for the non-transactional pair). -/
def certifyPrefix (db : DB) (e : Election) (byId : Int) (notes : Option String)
    (n : Nat) : DB :=
  applySteps db ((certifySteps db e byId notes).take n)

/-- election_certify handler from bot.py: guard (status must be CLOSED),
then the two writes. -/
def election_certify (db : DB) (eid : String) (byId : Int)
    (notes : Option String) : DB × OpResult :=
  match fetch_election db eid with
  | none => (db, .notFoundError)
  | some e =>
    if !(pyUpper e.status == "CLOSED") then (db, .invalidStateError)
    else (applySteps db (certifySteps db e byId notes), .success)

/-- election_uncertify handler from bot.py: CERTIFIED is reverted to
CLOSED (the reason is only posted to the audit channel, an external
sink outside the modelled state). -/
def election_uncertify (db : DB) (eid : String) : DB × OpResult :=
  match fetch_election db eid with
  | none => (db, .notFoundError)
  | some e =>
    if !(pyUpper e.status == "CERTIFIED") then (db, .invalidStateError)
    else (setElectionStatus db eid "CLOSED", .success)

/-- Python "\n".join: strings are modelled as character lists. -/
def joinNL : List (List Char) → List Char
  | [] => []
  | [p] => p
  | p :: q :: rest => p ++ '\n' :: joinNL (q :: rest)

/-- Python str.split("\n"): split a character list at every newline. -/
def splitNL : List Char → List (List Char)
  | [] => [[]]
  | c :: cs =>
    if c = '\n' then [] :: splitNL cs
    else
      match splitNL cs with
      | [] => [[c]]
      | p :: ps => (c :: p) :: ps

/-- chunk_lines from bot.py, transcribed over character-list strings:
the running loop state is (chunks, cur, cur_len) and each emitted chunk
is the newline-join of its group of lines. -/
def chunk_linesAux (limit : Nat) (lines : List (List Char))
    (chunks : List (List Char)) (cur : List (List Char)) (cur_len : Nat) :
    List (List Char) :=
  match lines with
  | [] => if cur.isEmpty then chunks else chunks ++ [joinNL cur]
  | line :: rest =>
    if !cur.isEmpty && decide (cur_len + (line.length + 1) > limit) then
      chunk_linesAux limit rest (chunks ++ [joinNL cur]) [line] line.length
    else
      chunk_linesAux limit rest chunks (cur ++ [line]) (cur_len + (line.length + 1))

/-- chunk_lines entry point (the source defaults limit to
DISCORD_MESSAGE_LIMIT = 2000). -/
def chunk_lines (lines : List (List Char)) (limit : Nat) : List (List Char) :=
  chunk_linesAux limit lines [] [] 0

/-- The same loop keeping each chunk as its group of lines instead of
the joined string, used to reason about chunk_lines. -/
def chunkGroupsAux (limit : Nat) (lines : List (List Char))
    (chunks : List (List (List Char))) (cur : List (List Char)) (cur_len : Nat) :
    List (List (List Char)) :=
  match lines with
  | [] => if cur.isEmpty then chunks else chunks ++ [cur]
  | line :: rest =>
    if !cur.isEmpty && decide (cur_len + (line.length + 1) > limit) then
      chunkGroupsAux limit rest (chunks ++ [cur]) [line] line.length
    else
      chunkGroupsAux limit rest chunks (cur ++ [line]) (cur_len + (line.length + 1))

/-- The groups of lines behind the chunks of chunk_lines. -/
def chunkGroups (limit : Nat) (lines : List (List Char)) :
    List (List (List Char)) :=
  chunkGroupsAux limit lines [] [] 0

/- ======================================================================
Theorems
====================================================================== -/

lemma review_accept_noop (db : DB) (bid rv : Int)
    (h : ∀ b ∈ db.ballots, b.ballot_id = bid → b.status ≠ "PENDING") :
    review_accept db bid rv = (db, .success) := by
  unfold review_accept
  have hmap : (db.ballots.map fun b =>
      if b.ballot_id == bid && b.status == "PENDING" then
        { b with status := "ACCEPTED", reviewed_by := some rv,
                 reject_reason := none }
      else b) = db.ballots := by
    conv_rhs => rw [← List.map_id db.ballots]
    apply List.map_congr_left
    intro b hb
    by_cases hid : b.ballot_id = bid
    · have hst := h b hb hid
      simp [hid, hst]
    · simp [hid]
  rw [hmap]

lemma review_reject_noop (db : DB) (bid rv : Int) (reason : String)
    (h : ∀ b ∈ db.ballots, b.ballot_id = bid → b.status ≠ "PENDING") :
    review_reject db bid rv reason = (db, .success) := by
  unfold review_reject
  have hmap : (db.ballots.map fun b =>
      if b.ballot_id == bid && b.status == "PENDING" then
        { b with status := "REJECTED", reviewed_by := some rv,
                 reject_reason := some reason }
      else b) = db.ballots := by
    conv_rhs => rw [← List.map_id db.ballots]
    apply List.map_congr_left
    intro b hb
    by_cases hid : b.ballot_id = bid
    · have hst := h b hb hid
      simp [hid, hst]
    · simp [hid]
  rw [hmap]

lemma review_accept_resolves (db : DB) (bid rv : Int) :
    ∀ b ∈ (review_accept db bid rv).1.ballots,
      b.ballot_id = bid → b.status ≠ "PENDING" := by
  intro b hb hid
  unfold review_accept at hb
  simp only [List.mem_map] at hb
  obtain ⟨a, _, ha⟩ := hb
  by_cases hc : (a.ballot_id == bid && a.status == "PENDING") = true
  · rw [if_pos hc] at ha
    rw [← ha]
    show ("ACCEPTED" : String) ≠ "PENDING"
    decide
  · rw [if_neg hc] at ha
    subst ha
    simp only [Bool.and_eq_true, beq_iff_eq, not_and] at hc
    exact fun hst => hc hid hst

lemma review_reject_resolves (db : DB) (bid rv : Int) (reason : String) :
    ∀ b ∈ (review_reject db bid rv reason).1.ballots,
      b.ballot_id = bid → b.status ≠ "PENDING" := by
  intro b hb hid
  unfold review_reject at hb
  simp only [List.mem_map] at hb
  obtain ⟨a, _, ha⟩ := hb
  by_cases hc : (a.ballot_id == bid && a.status == "PENDING") = true
  · rw [if_pos hc] at ha
    rw [← ha]
    show ("REJECTED" : String) ≠ "PENDING"
    decide
  · rw [if_neg hc] at ha
    subst ha
    simp only [Bool.and_eq_true, beq_iff_eq, not_and] at hc
    exact fun hst => hc hid hst

/-- Claim C1, amended.  The accept and reject reviews are conditional
updates guarded by status = PENDING: against a ballot that is no longer
PENDING both are no-ops on the store, and after either review resolves a
ballot the other review leaves the store unchanged (at most one of
accept/reject ever changes the ballot).  However, the handlers report
the success message unconditionally, so the loser of a review race is
told success, not AlreadyReviewedError. -/
theorem C1_review_conditional_update (db : DB) (bid rv1 rv2 : Int)
    (reason : String) :
    ((∀ b ∈ db.ballots, b.ballot_id = bid → b.status ≠ "PENDING") →
        review_accept db bid rv1 = (db, .success)
          ∧ review_reject db bid rv2 reason = (db, .success))
      ∧ review_reject (review_accept db bid rv1).1 bid rv2 reason
          = ((review_accept db bid rv1).1, .success)
      ∧ review_accept (review_reject db bid rv2 reason).1 bid rv1
          = ((review_reject db bid rv2 reason).1, .success)
      ∧ (review_accept db bid rv1).2 = .success
      ∧ (review_reject db bid rv2 reason).2 = .success := by
  refine ⟨fun h => ⟨review_accept_noop db bid rv1 h, review_reject_noop db bid rv2 reason h⟩, ?_, ?_, rfl, rfl⟩
  · exact review_reject_noop _ bid rv2 reason (review_accept_resolves db bid rv1)
  · exact review_accept_noop _ bid rv1 (review_reject_resolves db bid rv2 reason)

/-- A store whose only ballot is already REJECTED (reviewed by 2). -/
def dbReviewed : DB :=
  { elections :=
      [{ election_id := "E1"
         election_type := "GENERAL"
         include_house := true
         include_senate := false
         include_pres := false
         status := "OPEN" }]
    candidates := []
    ballots :=
      [{ ballot_id := 1
         election_id := "E1"
         voter_id := 7
         house_choices := [1]
         senate_choices := []
         pres_choice := none
         status := "REJECTED"
         reviewed_by := some 2
         reject_reason := some "incomplete" }]
    certifications := [] }

/-- Claim C1, counterexample to the claim as stated: accepting the
already-REJECTED ballot 1 leaves the store unchanged, but the handler
reports success, not AlreadyReviewedError. -/
theorem C1_counterexample :
    (review_accept dbReviewed 1 9).1 = dbReviewed
      ∧ (review_accept dbReviewed 1 9).2 = OpResult.success
      ∧ OpResult.success ≠ OpResult.alreadyReviewedError := by
  decide

/-- Claim C1, witness: the amended theorem applied to the concrete
store dbReviewed, discharging its hypotheses. -/
theorem C1_witness :
    review_accept dbReviewed 1 9 = (dbReviewed, .success)
      ∧ review_reject (review_accept dbReviewed 1 9).1 1 9 "late"
          = ((review_accept dbReviewed 1 9).1, .success) := by
  have h := C1_review_conditional_update dbReviewed 1 9 9 "late"
  exact ⟨(h.1 (by decide)).1, h.2.1⟩

lemma submit_ballot_eq_checked (db : DB) (eid : String) (voterId : Int)
    (hs ss : List Int) (ps : Option Int) (e : Election)
    (hfe : fetch_election db eid = some e) :
    submit_ballot db eid voterId hs ss ps
      = submit_ballot_checked db eid voterId hs ss ps e := by
  unfold submit_ballot
  rw [hfe]

/-- The ballots UNIQUE (election_id, voter_id) constraint: no two rows
share an (election, voter) pair. -/
def BallotsUnique (db : DB) : Prop :=
  db.ballots.Pairwise fun a b =>
    ¬(a.election_id = b.election_id ∧ a.voter_id = b.voter_id)

instance (db : DB) : Decidable (BallotsUnique db) := by
  unfold BallotsUnique
  infer_instance

/-- Claim C2.  The submit handler preserves the at-most-one-ballot-per-
(election, voter) invariant, and a second submission by a voter who
already has a ballot for the election (one that passes the earlier
not-found / polls-open / empty-ballot guards) reports DuplicateError and
leaves the store unchanged.  In the source the constraint is the UNIQUE
(election_id, voter_id) clause of the ballots table, raised by the
INSERT itself, not a prior application-level read. -/
theorem C2_ballot_uniqueness (db : DB) (eid : String) (voterId : Int)
    (hs ss : List Int) (ps : Option Int) (e : Election) :
    (BallotsUnique db → BallotsUnique (submit_ballot db eid voterId hs ss ps).1)
      ∧ (fetch_election db eid = some e →
         pyUpper e.status = "OPEN" →
         ballotEmptyAll e hs ss ps = false →
         (∃ b ∈ db.ballots, b.election_id = eid ∧ b.voter_id = voterId) →
         submit_ballot db eid voterId hs ss ps = (db, .duplicateError)) := by
  constructor
  · intro hU
    unfold submit_ballot
    rcases hfe : fetch_election db eid with _ | e0
    · simpa only [hfe] using hU
    · simp only [hfe]
      unfold submit_ballot_checked
      split_ifs with h1 h2 h3
      · exact hU
      · exact hU
      · exact hU
      · unfold BallotsUnique at hU ⊢
        simp only [List.any_eq_true, Bool.and_eq_true, beq_iff_eq, not_exists,
          not_and] at h3
        simp only [List.pairwise_append, List.pairwise_cons, List.mem_singleton]
        refine ⟨hU, ⟨by simp, List.Pairwise.nil⟩, ?_⟩
        intro a ha b hb
        subst hb
        intro hcon
        exact h3 a ha hcon.1 hcon.2
  · intro hfe hOpen hNE hEx
    rw [submit_ballot_eq_checked db eid voterId hs ss ps e hfe]
    unfold submit_ballot_checked
    have h1 : (pyUpper e.status == "OPEN") = true := by
      rw [hOpen]
      decide
    rw [h1]
    simp only [Bool.not_true, Bool.false_eq_true, if_false, hNE]
    have h3 : (db.ballots.any fun b =>
        b.election_id == eid && b.voter_id == voterId) = true := by
      simp only [List.any_eq_true, Bool.and_eq_true, beq_iff_eq]
      obtain ⟨b, hb, hb1, hb2⟩ := hEx
      exact ⟨b, hb, hb1, hb2⟩
    rw [h3]
    simp

/-- An OPEN election with one House candidate and no ballots yet. -/
def dbOpen : DB :=
  { elections :=
      [{ election_id := "E1"
         election_type := "GENERAL"
         include_house := true
         include_senate := false
         include_pres := false
         status := "OPEN" }]
    candidates :=
      [{ candidate_id := 1
         election_id := "E1"
         office := "HOUSE"
         rp_name := "Alice"
         party := "DEM"
         state := some "TX"
         district := some 3 }]
    ballots := []
    certifications := [] }

/-- The store after voter 7 submits one ballot to dbOpen. -/
def dbOpen1 : DB :=
  (submit_ballot dbOpen "E1" 7 [1] [] none).1

/-- The OPEN election row of dbOpen. -/
def eOpen : Election :=
  { election_id := "E1"
    election_type := "GENERAL"
    include_house := true
    include_senate := false
    include_pres := false
    status := "OPEN" }

/-- Claim C2, witness: voter 7's second submission against dbOpen1 is
refused with DuplicateError and the invariant is preserved. -/
theorem C2_witness :
    BallotsUnique (submit_ballot dbOpen1 "E1" 7 [1] [] none).1
      ∧ submit_ballot dbOpen1 "E1" 7 [1] [] none = (dbOpen1, .duplicateError) := by
  have h := C2_ballot_uniqueness dbOpen1 "E1" 7 [1] [] none eOpen
  exact ⟨h.1 (by decide), h.2 (by decide) (by decide) (by decide) (by decide)⟩

/-- Claim C5.  The election state machine: open succeeds from DRAFT and
from CLOSED (moving the election to OPEN), reports the CERTIFIED lock,
and is a no-op success when already OPEN; certify succeeds exactly when
the status is CLOSED; and while CERTIFIED, candidate registration is
locked and ballot submission is rejected, until election_uncertify
returns the election to CLOSED. -/
theorem C5_lifecycle (db : DB) (eid : String) (e : Election)
    (byId voterId : Int) (notes : Option String)
    (office rp party : String) (st : Option String) (dist : Option Int)
    (hs ss : List Int) (ps : Option Int)
    (hfe : fetch_election db eid = some e) :
    (e.status = "DRAFT" →
        election_open db eid = (setElectionStatus db eid "OPEN", .success))
      ∧ (e.status = "CLOSED" →
        election_open db eid = (setElectionStatus db eid "OPEN", .success))
      ∧ (e.status = "CERTIFIED" → election_open db eid = (db, .lockedError))
      ∧ (e.status = "OPEN" → election_open db eid = (db, .success))
      ∧ (pyUpper e.status ≠ "CLOSED" →
        election_certify db eid byId notes = (db, .invalidStateError))
      ∧ (pyUpper e.status = "CLOSED" →
        (election_certify db eid byId notes).2 = .success)
      ∧ (e.status = "CERTIFIED" →
        add_candidate db eid office rp party st dist = (db, .lockedError))
      ∧ (e.status = "CERTIFIED" →
        submit_ballot db eid voterId hs ss ps = (db, .invalidStateError))
      ∧ (e.status = "CERTIFIED" →
        election_uncertify db eid = (setElectionStatus db eid "CLOSED", .success)) := by
  refine ⟨?_, ?_, ?_, ?_, ?_, ?_, ?_, ?_, ?_⟩
  · intro hst
    unfold election_open
    simp [hfe, hst, show (pyUpper "DRAFT" == "CERTIFIED") = false from by decide]
  · intro hst
    unfold election_open
    simp [hfe, hst, show (pyUpper "CLOSED" == "CERTIFIED") = false from by decide]
  · intro hst
    unfold election_open
    simp [hfe, hst, show (pyUpper "CERTIFIED" == "CERTIFIED") = true from by decide]
  · intro hst
    unfold election_open
    simp [hfe, hst, show (pyUpper "OPEN" == "CERTIFIED") = false from by decide]
  · intro hst
    unfold election_certify
    have hc : (pyUpper e.status == "CLOSED") = false := beq_eq_false_iff_ne.mpr hst
    simp [hfe, hc]
  · intro hst
    unfold election_certify
    have hc : (pyUpper e.status == "CLOSED") = true := by
      rw [hst]
      decide
    simp [hfe, hc]
  · intro hst
    unfold add_candidate
    simp [hfe, hst, show (pyUpper "CERTIFIED" == "CERTIFIED") = true from by decide]
  · intro hst
    rw [submit_ballot_eq_checked db eid voterId hs ss ps e hfe]
    unfold submit_ballot_checked
    simp [hst, show (pyUpper "CERTIFIED" == "OPEN") = false from by decide]
  · intro hst
    unfold election_uncertify
    simp [hfe, hst, show (pyUpper "CERTIFIED" == "CERTIFIED") = true from by decide]

/-- A DRAFT election. -/
def dbDraft : DB :=
  { elections :=
      [{ election_id := "E1"
         election_type := "GENERAL"
         include_house := true
         include_senate := false
         include_pres := false
         status := "DRAFT" }]
    candidates := []
    ballots := []
    certifications := [] }

/-- The DRAFT election row of dbDraft. -/
def eDraft : Election :=
  { election_id := "E1"
    election_type := "GENERAL"
    include_house := true
    include_senate := false
    include_pres := false
    status := "DRAFT" }

/-- A CERTIFIED election. -/
def dbCertified : DB :=
  { elections :=
      [{ election_id := "E1"
         election_type := "GENERAL"
         include_house := true
         include_senate := false
         include_pres := false
         status := "CERTIFIED" }]
    candidates := []
    ballots := []
    certifications := [] }

/-- The CERTIFIED election row of dbCertified. -/
def eCertified : Election :=
  { election_id := "E1"
    election_type := "GENERAL"
    include_house := true
    include_senate := false
    include_pres := false
    status := "CERTIFIED" }

/-- Claim C5, witness: the lifecycle theorem applied to concrete DRAFT,
OPEN and CERTIFIED stores. -/
theorem C5_witness :
    election_open dbDraft "E1" = (setElectionStatus dbDraft "E1" "OPEN", .success)
      ∧ election_open dbCertified "E1" = (dbCertified, .lockedError)
      ∧ election_open dbOpen "E1" = (dbOpen, .success)
      ∧ election_certify dbOpen "E1" 9 none = (dbOpen, .invalidStateError)
      ∧ add_candidate dbCertified "E1" "HOUSE" "Zed" "IND" (some "TX") (some 1)
          = (dbCertified, .lockedError)
      ∧ submit_ballot dbCertified "E1" 8 [1] [] none
          = (dbCertified, .invalidStateError)
      ∧ election_uncertify dbCertified "E1"
          = (setElectionStatus dbCertified "E1" "CLOSED", .success) := by
  have hd := C5_lifecycle dbDraft "E1" eDraft 9 8 none "HOUSE" "Zed" "IND"
    (some "TX") (some 1) [1] [] none (by decide)
  have hc := C5_lifecycle dbCertified "E1" eCertified 9 8 none "HOUSE" "Zed" "IND"
    (some "TX") (some 1) [1] [] none (by decide)
  have ho := C5_lifecycle dbOpen "E1" eOpen 9 8 none "HOUSE" "Zed" "IND"
    (some "TX") (some 1) [1] [] none (by decide)
  refine ⟨hd.1 rfl, hc.2.2.1 rfl, ho.2.2.2.1 rfl, ho.2.2.2.2.1 (by decide),
    hc.2.2.2.2.2.2.1 rfl, hc.2.2.2.2.2.2.2.1 rfl, hc.2.2.2.2.2.2.2.2 rfl⟩

/-- Claim C8.  Whenever the voting flow stores a ballot, the stored
House and Senate selections are exactly the submitted values
deduplicated in first-occurrence order and truncated to the configured
caps (3 and 2): over-cap selections are dropped by the selection
handlers, never rejected by the submit handler. -/
theorem C8_dedup_truncate (db : DB) (eid : String) (voterId : Int)
    (hv sv : List Int) (pv : Option Int)
    (h : (cast_ballot db eid voterId hv sv pv).2 = .success) :
    ∃ b : Ballot,
      (cast_ballot db eid voterId hv sv pv).1.ballots = db.ballots ++ [b]
        ∧ b.house_choices = (dedupFirst hv).take HOUSE_MAX_PICKS
        ∧ b.house_choices.length ≤ HOUSE_MAX_PICKS
        ∧ b.senate_choices = (dedupFirst sv).take SENATE_MAX_PICKS
        ∧ b.senate_choices.length ≤ SENATE_MAX_PICKS
        ∧ b.status = "PENDING" := by
  unfold cast_ballot at h ⊢
  obtain ⟨e, hfe⟩ : ∃ e, fetch_election db eid = some e := by
    rcases hq : fetch_election db eid with _ | e2
    · unfold submit_ballot at h
      rw [hq] at h
      simp at h
    · exact ⟨e2, rfl⟩
  rw [submit_ballot_eq_checked db eid voterId _ _ _ e hfe] at h ⊢
  unfold submit_ballot_checked at h ⊢
  split_ifs at h ⊢ with h1 h2 h3
  exact ⟨_, rfl, rfl, List.length_take_le _ _, rfl, List.length_take_le _ _, rfl⟩

/-- Claim C8, witness: five distinct House selections against the OPEN
election are accepted with exactly the first three retained. -/
theorem C8_witness :
    ∃ b : Ballot,
      (cast_ballot dbOpen "E1" 7 [10, 11, 12, 13, 14] [] none).1.ballots
          = dbOpen.ballots ++ [b]
        ∧ b.house_choices = [10, 11, 12]
        ∧ b.status = "PENDING" := by
  obtain ⟨b, hb, hh, _, _, _, hp⟩ :=
    C8_dedup_truncate dbOpen "E1" 7 [10, 11, 12, 13, 14] [] none (by decide)
  refine ⟨b, hb, ?_, hp⟩
  rw [hh]
  decide

/-- Claim C9.  A submission with empty House, empty Senate and no
President choice against an election whose polls are OPEN is refused by
the empty-ballot guard (ValidationError) and stores nothing, whatever
combination of offices the election enables. -/
theorem C9_empty_ballot (db : DB) (eid : String) (voterId : Int) (e : Election)
    (hfe : fetch_election db eid = some e)
    (hOpen : pyUpper e.status = "OPEN") :
    cast_ballot db eid voterId [] [] none = (db, .validationError) := by
  unfold cast_ballot
  rw [submit_ballot_eq_checked db eid voterId _ _ _ e hfe]
  unfold submit_ballot_checked
  have h1 : (pyUpper e.status == "OPEN") = true := by
    rw [hOpen]
    decide
  have h2 : ballotEmptyAll e (on_house_change []) (on_senate_change []) none = true := by
    unfold ballotEmptyAll on_house_change on_senate_change dedupFirst
    simp
  simp [h1, h2]

/-- An OPEN election with all three offices enabled. -/
def dbOpenAll : DB :=
  { elections :=
      [{ election_id := "E1"
         election_type := "GENERAL"
         include_house := true
         include_senate := true
         include_pres := true
         status := "OPEN" }]
    candidates := []
    ballots := []
    certifications := [] }

/-- The election row of dbOpenAll. -/
def eOpenAll : Election :=
  { election_id := "E1"
    election_type := "GENERAL"
    include_house := true
    include_senate := true
    include_pres := true
    status := "OPEN" }

/-- Claim C9, witness: the empty submission against the OPEN election
with all three offices enabled is refused with ValidationError. -/
theorem C9_witness :
    cast_ballot dbOpenAll "E1" 7 [] [] none = (dbOpenAll, .validationError) :=
  C9_empty_ballot dbOpenAll "E1" 7 eOpenAll (by decide) (by decide)

/-- The election_certifications PRIMARY KEY (election_id): no two
certification rows share an election. -/
def CertsUnique (db : DB) : Prop :=
  db.certifications.Pairwise fun a b => a.election_id ≠ b.election_id

instance (db : DB) : Decidable (CertsUnique db) := by
  unfold CertsUnique
  infer_instance

lemma upsertCert_unique (db : DB) (c : Certification) (hU : CertsUnique db) :
    CertsUnique (upsertCert db c) := by
  unfold CertsUnique at hU ⊢
  unfold upsertCert
  split_ifs with hAny
  · show (db.certifications.map fun x =>
      if x.election_id == c.election_id then c else x).Pairwise _
    have heid : ∀ x : Certification,
        (if x.election_id == c.election_id then c else x).election_id
          = x.election_id := by
      intro x
      by_cases hx : x.election_id = c.election_id
      · simp [hx]
      · simp [hx]
    refine List.Pairwise.map _ ?_ hU
    intro a b hab
    rw [heid a, heid b]
    exact hab
  · show (db.certifications ++ [c]).Pairwise _
    rw [List.pairwise_append]
    refine ⟨hU, by simp, ?_⟩
    intro a ha b hb
    simp only [List.mem_singleton] at hb
    subst hb
    simp only [List.any_eq_true, beq_iff_eq, not_exists] at hAny
    intro hcon
    exact hAny a ⟨ha, hcon⟩

lemma upsert_map_filter (l : List Certification) (c : Certification)
    (hU : l.Pairwise fun a b => a.election_id ≠ b.election_id)
    (hAny : l.any (fun x => x.election_id == c.election_id) = true) :
    (l.map fun x => if x.election_id == c.election_id then c else x).filter
      (fun x => x.election_id == c.election_id) = [c] := by
  induction l with
  | nil => simp at hAny
  | cons hd tl ih =>
    rw [List.pairwise_cons] at hU
    by_cases hh : hd.election_id = c.election_id
    · have htl : ∀ x ∈ tl, (x.election_id == c.election_id) = false := by
        intro x hx
        rw [beq_eq_false_iff_ne]
        intro hc
        exact hU.1 x hx (hh.trans hc.symm)
      have hmap : (tl.map fun x =>
          if x.election_id == c.election_id then c else x) = tl := by
        conv_rhs => rw [← List.map_id tl]
        apply List.map_congr_left
        intro x hx
        simp [htl x hx]
      have hfil : tl.filter (fun x => x.election_id == c.election_id) = [] := by
        rw [List.filter_eq_nil_iff]
        intro x hx
        simp [htl x hx]
      rw [List.map_cons, hmap, if_pos (by simp [hh])]
      rw [List.filter_cons_of_pos (by simp)]
      rw [hfil]
    · have hAny2 : tl.any (fun x => x.election_id == c.election_id) = true := by
        rcases List.any_eq_true.mp hAny with ⟨x, hx, hpx⟩
        rcases List.mem_cons.mp hx with hx1 | hx2
        · subst hx1
          simp only [beq_iff_eq] at hpx
          exact absurd hpx hh
        · exact List.any_eq_true.mpr ⟨x, hx2, hpx⟩
      rw [List.map_cons, if_neg (by simp [hh])]
      rw [List.filter_cons_of_neg (by simp [hh])]
      exact ih hU.2 hAny2

lemma upsertCert_filter (db : DB) (c : Certification) (hU : CertsUnique db) :
    (upsertCert db c).certifications.filter
      (fun x => x.election_id == c.election_id) = [c] := by
  unfold upsertCert
  split_ifs with hAny
  · exact upsert_map_filter db.certifications c hU hAny
  · show (db.certifications ++ [c]).filter _ = [c]
    rw [List.filter_append]
    have hfil : db.certifications.filter
        (fun x => x.election_id == c.election_id) = [] := by
      rw [List.filter_eq_nil_iff]
      intro x hx
      simp only [List.any_eq_true, beq_iff_eq, not_exists] at hAny
      simp only [beq_iff_eq]
      exact fun hc => hAny x ⟨hx, hc⟩
    rw [hfil]
    simp

lemma election_certify_eq (db : DB) (eid : String) (byId : Int)
    (notes : Option String) (e : Election)
    (hfe : fetch_election db eid = some e) :
    election_certify db eid byId notes
      = if !(pyUpper e.status == "CLOSED") then (db, .invalidStateError)
        else (applySteps db (certifySteps db e byId notes), .success) := by
  unfold election_certify
  rw [hfe]

lemma fetched_eid (db : DB) (eid : String) (e : Election)
    (hfe : fetch_election db eid = some e) : e.election_id = eid := by
  unfold fetch_election at hfe
  have := List.find?_some hfe
  simpa using this

/-- Claim C7.  Certification keeps at most one snapshot row per
election, and certifying (from CLOSED) leaves exactly one retrievable
snapshot for the election: the freshly computed one.  Re-certification
therefore overwrites (last-certification-wins) rather than appends. -/
theorem C7_single_snapshot (db : DB) (eid : String) (byId : Int)
    (notes : Option String) (e : Election)
    (hU : CertsUnique db)
    (hfe : fetch_election db eid = some e)
    (hst : pyUpper e.status = "CLOSED") :
    CertsUnique (election_certify db eid byId notes).1
      ∧ (election_certify db eid byId notes).1.certifications.filter
          (fun x => x.election_id == eid) = [mkCert db e byId notes] := by
  have heid : e.election_id = eid := fetched_eid db eid e hfe
  have hcond : (pyUpper e.status == "CLOSED") = true := by
    rw [hst]
    decide
  rw [election_certify_eq db eid byId notes e hfe, hcond]
  simp only [Bool.not_true, Bool.false_eq_true, if_false]
  constructor
  · exact upsertCert_unique db (mkCert db e byId notes) hU
  · have := upsertCert_filter db (mkCert db e byId notes) hU
    have hmk : (mkCert db e byId notes).election_id = e.election_id := rfl
    rw [hmk, heid] at this
    exact this

/-- A CLOSED election with one House candidate and one ACCEPTED ballot,
ready to certify. -/
def dbClosed : DB :=
  { elections :=
      [{ election_id := "E1"
         election_type := "GENERAL"
         include_house := true
         include_senate := false
         include_pres := false
         status := "CLOSED" }]
    candidates :=
      [{ candidate_id := 1
         election_id := "E1"
         office := "HOUSE"
         rp_name := "Alice"
         party := "DEM"
         state := some "TX"
         district := some 3 }]
    ballots :=
      [{ ballot_id := 1
         election_id := "E1"
         voter_id := 7
         house_choices := [1]
         senate_choices := []
         pres_choice := none
         status := "ACCEPTED"
         reviewed_by := some 2
         reject_reason := none }]
    certifications := [] }

/-- The CLOSED election row of dbClosed. -/
def eClosed : Election :=
  { election_id := "E1"
    election_type := "GENERAL"
    include_house := true
    include_senate := false
    include_pres := false
    status := "CLOSED" }

/-- Claim C7, witness: certifying the concrete CLOSED store leaves
exactly the freshly computed snapshot retrievable for E1. -/
theorem C7_witness :
    CertsUnique (election_certify dbClosed "E1" 9 none).1
      ∧ (election_certify dbClosed "E1" 9 none).1.certifications.filter
          (fun x => x.election_id == "E1") = [mkCert dbClosed eClosed 9 none] :=
  C7_single_snapshot dbClosed "E1" 9 none eClosed (by decide) (by decide) (by decide)

lemma fetch_upsert (db : DB) (c : Certification) (eid : String) :
    fetch_election (upsertCert db c) eid = fetch_election db eid := by
  unfold upsertCert fetch_election
  split_ifs <;> rfl

lemma upsert_any (db : DB) (c : Certification) (eid : String)
    (heq : c.election_id = eid) :
    (upsertCert db c).certifications.any
      (fun x => x.election_id == eid) = true := by
  unfold upsertCert
  split_ifs with hAny
  · show (db.certifications.map fun x =>
      if x.election_id == c.election_id then c else x).any _ = true
    rcases List.any_eq_true.mp hAny with ⟨x, hx, hpx⟩
    refine List.any_eq_true.mpr ⟨c, ?_, by simp [heq]⟩
    refine List.mem_map.mpr ⟨x, hx, ?_⟩
    rw [if_pos hpx]
  · show (db.certifications ++ [c]).any _ = true
    rw [List.any_append]
    have : ([c].any fun x => x.election_id == eid) = true := by simp [heq]
    rw [this]
    simp

lemma fetch_setStatus (db : DB) (eid st : String) (e : Election)
    (hfe : fetch_election db eid = some e) :
    fetch_election (setElectionStatus db eid st) eid
      = some { e with status := st } := by
  unfold fetch_election at hfe
  unfold fetch_election setElectionStatus
  have hfind : ∀ l : List Election, l.find? (fun x => x.election_id == eid) = some e →
      (l.map fun x => if x.election_id == eid then { x with status := st } else x).find?
        (fun x => x.election_id == eid) = some { e with status := st } := by
    intro l
    induction l with
    | nil => intro h; simp at h
    | cons hd tl ih =>
      intro h
      by_cases hh : (hd.election_id == eid) = true
      · have h1 : List.find? (fun x => x.election_id == eid) (hd :: tl) = some hd := by
          apply List.find?_cons_of_pos
          exact hh
        rw [h1] at h
        injection h with he
        subst he
        rw [List.map_cons, if_pos hh]
        apply List.find?_cons_of_pos
        simpa using hh
      · have h2 : List.find? (fun x => x.election_id == eid) tl = some e := by
          rw [← h]
          symm
          apply List.find?_cons_of_neg
          exact hh
        rw [List.map_cons, if_neg hh]
        have h3 := ih h2
        rw [← h3]
        apply List.find?_cons_of_neg
        exact hh
  exact hfind db.elections hfe

/-- Claim C4, amended.  election_certify issues its two writes as two
separate statements with no enclosing transaction; over every
crash-reachable prefix of those writes the election is CERTIFIED only
if its snapshot is already stored (the upsert precedes the status
flip), and the completed operation equals the two-step prefix — but a
crash between the statements leaves a stored snapshot while the
election is still CLOSED, so the pair is not atomic in the other
direction (see the counterexample). -/
theorem C4_certify_two_steps (db : DB) (eid : String) (byId : Int)
    (notes : Option String) (e : Election)
    (hfe : fetch_election db eid = some e)
    (hst : pyUpper e.status = "CLOSED") :
    (∀ n : Nat,
        (fetch_election (certifyPrefix db e byId notes n) eid).map
            (fun x => x.status) = some "CERTIFIED" →
          (certifyPrefix db e byId notes n).certifications.any
            (fun x => x.election_id == eid) = true)
      ∧ (election_certify db eid byId notes).1
          = certifyPrefix db e byId notes 2 := by
  have heid : e.election_id = eid := fetched_eid db eid e hfe
  have hne : e.status ≠ "CERTIFIED" := by
    intro hc
    rw [hc] at hst
    exact absurd hst (by decide)
  constructor
  · intro n
    match n with
    | 0 =>
      intro hcert
      exfalso
      have : certifyPrefix db e byId notes 0 = db := rfl
      rw [this, hfe] at hcert
      simp only [Option.map_some'] at hcert
      injection hcert with hs
      exact hne hs
    | 1 =>
      intro hcert
      exfalso
      have : certifyPrefix db e byId notes 1
          = upsertCert db (mkCert db e byId notes) := rfl
      rw [this, fetch_upsert, hfe] at hcert
      simp only [Option.map_some'] at hcert
      injection hcert with hs
      exact hne hs
    | (m + 2) =>
      intro _
      have hpre : certifyPrefix db e byId notes (m + 2)
          = setElectionStatus (upsertCert db (mkCert db e byId notes))
              e.election_id "CERTIFIED" := by
        unfold certifyPrefix certifySteps applySteps
        rw [List.take_of_length_le (by simp)]
        rfl
      rw [hpre]
      show (upsertCert db (mkCert db e byId notes)).certifications.any
        (fun x => x.election_id == eid) = true
      exact upsert_any db (mkCert db e byId notes) eid heid
  · have hcond : (pyUpper e.status == "CLOSED") = true := by
      rw [hst]
      decide
    rw [election_certify_eq db eid byId notes e hfe, hcond]
    rfl

/-- Claim C4, counterexample to the claim as stated: stopping
election_certify on the concrete CLOSED store after its first write (the
snapshot upsert) is a reachable post-failure state holding a stored
snapshot for an election whose certification did not complete (its
status is still CLOSED, not CERTIFIED). -/
theorem C4_counterexample :
    (certifyPrefix dbClosed eClosed 9 none 1).certifications ≠ []
      ∧ (fetch_election (certifyPrefix dbClosed eClosed 9 none 1) "E1").map
          (fun x => x.status) = some "CLOSED" := by
  constructor
  · decide
  · decide

/-- Claim C4, witness: the amended theorem applied to the concrete
CLOSED store. -/
theorem C4_witness :
    (election_certify dbClosed "E1" 9 none).1
      = certifyPrefix dbClosed eClosed 9 none 2 :=
  (C4_certify_two_steps dbClosed "E1" 9 none eClosed (by decide) (by decide)).2

/-- The store with every non-ACCEPTED ballot discarded. -/
def restrictAccepted (db : DB) : DB :=
  { db with ballots := db.ballots.filter fun b => b.status == "ACCEPTED" }

lemma acceptedBallots_restrict (db : DB) (eid : String) :
    acceptedBallots (restrictAccepted db) eid = acceptedBallots db eid := by
  unfold acceptedBallots restrictAccepted
  show List.filter _ (List.filter _ db.ballots) = _
  rw [List.filter_filter]
  apply List.filter_congr
  intro b _
  cases h1 : b.election_id == eid <;> cases h2 : b.status == "ACCEPTED" <;>
    simp [h1, h2]

lemma officeRows_restrict (db : DB) (eid office : String) :
    officeRows (restrictAccepted db) eid office = officeRows db eid office := by
  unfold officeRows
  rw [acceptedBallots_restrict]
  rfl

lemma office_results_restrict (db : DB) (eid office : String) :
    office_results (restrictAccepted db) eid office
      = office_results db eid office := by
  unfold office_results sortedGroups officeGroups
  rw [officeRows_restrict]

lemma sortedGroups_perm (db : DB) (eid office : String) :
    List.Perm (sortedGroups db eid office) (officeGroups db eid office) :=
  List.perm_insertionSort resultOrder (officeGroups db eid office)

lemma sortedGroups_sum (db : DB) (eid office : String) :
    ((sortedGroups db eid office).map fun r => r.2).sum
      = (officeRows db eid office).length := by
  have hperm := (sortedGroups_perm db eid office).map fun r : GroupKey × Nat => r.2
  rw [hperm.sum_eq]
  unfold officeGroups
  rw [List.map_map]
  show ((((officeRows db eid office).map keyOf).dedup).map
    fun k => (((officeRows db eid office).map keyOf).count k)).sum = _
  rw [List.sum_map_count_dedup_eq_length]
  exact List.length_map _ _

lemma sortedGroups_sorted (db : DB) (eid office : String) :
    (sortedGroups db eid office).Pairwise resultOrder :=
  List.sorted_insertionSort resultOrder (officeGroups db eid office)

lemma office_results_fst (db : DB) (eid office : String) :
    (office_results db eid office).1
      = (sortedGroups db eid office).map
          (renderResult office (office_results db eid office).2) := rfl

lemma office_results_snd (db : DB) (eid office : String) :
    (office_results db eid office).2
      = ((sortedGroups db eid office).map fun r => r.2).sum := rfl

/-- Claim C3.  office_results counts only ACCEPTED ballots (the result
over any store equals the result over the store restricted to its
ACCEPTED ballots); the reported office total and the sum of the
per-candidate counts both equal the number of joined (accepted ballot,
selection) pairs for the office, with a ballot contributing at most one
President pair; the output is ordered by descending vote count with
ties broken by ascending candidate name; and the output is a pure
function of the stored data, hence deterministic across repeated calls. -/
theorem C3_office_results (db : DB) (eid office : String) :
    office_results db eid office = office_results (restrictAccepted db) eid office
      ∧ (office_results db eid office).2 = (officeRows db eid office).length
      ∧ ((office_results db eid office).1.map fun r => r.2.1).sum
          = (officeRows db eid office).length
      ∧ (sortedGroups db eid office).Pairwise resultOrder
      ∧ (office_results db eid office).1
          = (sortedGroups db eid office).map
              (renderResult office (office_results db eid office).2)
      ∧ ∀ b : Ballot, (ballotOfficeSelections "PRESIDENT" b).length ≤ 1 := by
  refine ⟨(office_results_restrict db eid office).symm, ?_, ?_,
    sortedGroups_sorted db eid office, office_results_fst db eid office, ?_⟩
  · rw [office_results_snd]
    exact sortedGroups_sum db eid office
  · rw [office_results_fst, List.map_map]
    have hcomp : ((fun r : String × Nat × ℚ => r.2.1)
        ∘ renderResult office (office_results db eid office).2)
          = fun r : GroupKey × Nat => r.2 := rfl
    rw [hcomp]
    exact sortedGroups_sum db eid office
  · intro b
    unfold ballotOfficeSelections
    cases hb : b.pres_choice <;> simp [hb]

/-- Claim C3, witness: the tabulation theorem applied to the concrete
store with one accepted House ballot. -/
theorem C3_witness :
    (office_results dbClosed "E1" "HOUSE").2
      = (officeRows dbClosed "E1" "HOUSE").length :=
  (C3_office_results dbClosed "E1" "HOUSE").2.1

/-- Claim C6.  Every reported percentage is votes divided by the office
total times 100, and 0 when the total is 0 (no division fault); the
percentages sum to exactly 100 (in exact rational arithmetic, hence to
100 up to float rounding) whenever the total is positive; and
reporting_stats yields a 0 percentage when the submitted count is 0. -/
theorem C6_percentages (db : DB) (eid office : String) :
    (∀ r ∈ (office_results db eid office).1,
        r.2.2 = if (office_results db eid office).2 = 0 then 0
                else (r.2.1 : ℚ) / ((office_results db eid office).2 : ℚ) * 100)
      ∧ ((office_results db eid office).2 = 0 →
          ∀ r ∈ (office_results db eid office).1, r.2.2 = 0)
      ∧ (0 < (office_results db eid office).2 →
          ((office_results db eid office).1.map fun r => r.2.2).sum = 100)
      ∧ ((reporting_stats db eid).1 = 0 → (reporting_stats db eid).2.2 = 0) := by
  have hform : ∀ r ∈ (office_results db eid office).1,
      r.2.2 = if (office_results db eid office).2 = 0 then 0
              else (r.2.1 : ℚ) / ((office_results db eid office).2 : ℚ) * 100 := by
    intro r hr
    rw [office_results_fst] at hr
    simp only [List.mem_map] at hr
    obtain ⟨g, _, hg⟩ := hr
    rw [← hg]
    rfl
  refine ⟨hform, ?_, ?_, ?_⟩
  · intro h0 r hr
    rw [hform r hr, if_pos h0]
  · intro hpos
    have h0 : ¬((office_results db eid office).2 = 0) :=
      Nat.pos_iff_ne_zero.mp hpos
    have hT : ((office_results db eid office).2 : ℚ) ≠ 0 := by
      exact_mod_cast h0
    rw [office_results_fst, List.map_map]
    have hcomp : ((fun r : String × Nat × ℚ => r.2.2)
        ∘ renderResult office (office_results db eid office).2)
          = fun r : GroupKey × Nat =>
              if (office_results db eid office).2 = 0 then 0
              else (r.2 : ℚ) / ((office_results db eid office).2 : ℚ) * 100 := rfl
    rw [hcomp]
    have hmap : ((sortedGroups db eid office).map fun r : GroupKey × Nat =>
          if (office_results db eid office).2 = 0 then (0 : ℚ)
          else (r.2 : ℚ) / ((office_results db eid office).2 : ℚ) * 100)
        = (sortedGroups db eid office).map fun r : GroupKey × Nat =>
            ((r.2 : Nat) : ℚ) * (100 / ((office_results db eid office).2 : ℚ)) := by
      apply List.map_congr_left
      intro g _
      rw [if_neg h0]
      field_simp
    rw [hmap, List.sum_map_mul_right]
    have hsum : ((sortedGroups db eid office).map fun g : GroupKey × Nat =>
        ((g.2 : Nat) : ℚ)).sum
          = ((((sortedGroups db eid office).map fun g => g.2).sum : Nat) : ℚ) := by
      rw [Nat.cast_list_sum, List.map_map]
      rfl
    rw [hsum, ← office_results_snd]
    field_simp
  · intro h
    have h2 : (db.ballots.filter fun b => b.election_id == eid).length = 0 := h
    show (if (db.ballots.filter fun b => b.election_id == eid).length = 0
        then (0 : ℚ)
        else ((db.ballots.filter fun b =>
            b.election_id == eid && b.status == "ACCEPTED").length : ℚ)
          / ((db.ballots.filter fun b => b.election_id == eid).length : ℚ) * 100)
      = 0
    rw [if_pos h2]

/-- Claim C6, witness: over the concrete store with one accepted House
ballot the percentages sum to 100, and over the DRAFT store with no
ballots reporting_stats yields a 0 percentage. -/
theorem C6_witness :
    ((office_results dbClosed "E1" "HOUSE").1.map fun r => r.2.2).sum = 100
      ∧ (reporting_stats dbDraft "E1").2.2 = 0 := by
  have h1 := C6_percentages dbClosed "E1" "HOUSE"
  have h2 := C6_percentages dbDraft "E1" "HOUSE"
  exact ⟨h1.2.2.1 (by decide), h2.2.2.2 (by decide)⟩

lemma splitNL_ne_nil (l : List Char) : splitNL l ≠ [] := by
  cases l with
  | nil => simp [splitNL]
  | cons c cs =>
    unfold splitNL
    by_cases hc : c = '\n'
    · simp [hc]
    · rw [if_neg hc]
      cases h : splitNL cs <;> simp

lemma splitNL_no_nl (l : List Char) (h : '\n' ∉ l) : splitNL l = [l] := by
  induction l with
  | nil => rfl
  | cons c cs ih =>
    have hc : ¬(c = '\n') := fun hcc => h (hcc ▸ List.mem_cons_self c cs)
    have hcs : '\n' ∉ cs := fun hm => h (List.mem_cons_of_mem c hm)
    unfold splitNL
    rw [if_neg hc, ih hcs]

lemma splitNL_append (l r : List Char) (h : '\n' ∉ l) :
    splitNL (l ++ '\n' :: r) = l :: splitNL r := by
  induction l with
  | nil =>
    show splitNL ('\n' :: r) = [] :: splitNL r
    rfl
  | cons c cs ih =>
    have hc : ¬(c = '\n') := fun hcc => h (hcc ▸ List.mem_cons_self c cs)
    have hcs : '\n' ∉ cs := fun hm => h (List.mem_cons_of_mem c hm)
    show splitNL (c :: (cs ++ '\n' :: r)) = (c :: cs) :: splitNL r
    simp only [splitNL]
    rw [if_neg hc, ih hcs]

lemma splitNL_joinNL :
    ∀ parts : List (List Char), parts ≠ [] → (∀ p ∈ parts, '\n' ∉ p) →
      splitNL (joinNL parts) = parts
  | [], h, _ => absurd rfl h
  | [p], _, hp => by
    show splitNL (joinNL [p]) = [p]
    rw [show joinNL [p] = p from rfl]
    exact splitNL_no_nl p (hp p (by simp))
  | p :: q :: rest, _, hp => by
    show splitNL (joinNL (p :: q :: rest)) = p :: q :: rest
    rw [show joinNL (p :: q :: rest) = p ++ '\n' :: joinNL (q :: rest) from rfl]
    rw [splitNL_append _ _ (hp p (by simp))]
    rw [splitNL_joinNL (q :: rest) (by simp) (fun x hx => hp x (by simp [hx]))]

lemma joinNL_concat (line : List Char) :
    ∀ cur : List (List Char), cur ≠ [] →
      joinNL (cur ++ [line]) = joinNL cur ++ '\n' :: line
  | [], h => absurd rfl h
  | [x], _ => by
    show joinNL [x, line] = joinNL [x] ++ '\n' :: line
    rfl
  | x :: y :: rest, _ => by
    show joinNL (x :: ((y :: rest) ++ [line]))
      = joinNL (x :: y :: rest) ++ '\n' :: line
    have ih := joinNL_concat line (y :: rest) (by simp)
    rcases hys : (y :: rest) ++ [line] with _ | ⟨z, zs⟩
    · simp at hys
    · rw [show joinNL (x :: z :: zs) = x ++ '\n' :: joinNL (z :: zs) from rfl]
      rw [← hys, ih]
      rw [show joinNL (x :: y :: rest) = x ++ '\n' :: joinNL (y :: rest) from rfl]
      simp

lemma chunkGroupsAux_spec (limit : Nat) :
    ∀ (lines : List (List Char)) (chunks : List (List (List Char)))
      (cur : List (List Char)) (cur_len : Nat),
      (∀ l ∈ lines, l.length ≤ limit) →
      (joinNL cur).length ≤ cur_len →
      (joinNL cur).length ≤ limit →
      (∀ g ∈ chunks, g ≠ [] ∧ (joinNL g).length ≤ limit) →
      (∀ g ∈ chunkGroupsAux limit lines chunks cur cur_len,
          g ≠ [] ∧ (joinNL g).length ≤ limit)
        ∧ (chunkGroupsAux limit lines chunks cur cur_len).flatten
            = chunks.flatten ++ cur ++ lines := by
  intro lines
  induction lines with
  | nil =>
    intro chunks cur cur_len _ _ hK hchunks
    unfold chunkGroupsAux
    by_cases hcur : cur.isEmpty = true
    · rw [if_pos hcur]
      have : cur = [] := List.isEmpty_iff.mp hcur
      subst this
      exact ⟨hchunks, by simp⟩
    · rw [if_neg hcur]
      constructor
      · intro g hg
        rcases List.mem_append.mp hg with hg1 | hg2
        · exact hchunks g hg1
        · rw [List.mem_singleton] at hg2
          subst hg2
          exact ⟨fun hnil => hcur (by simp [hnil]), hK⟩
      · simp
  | cons line rest ih =>
    intro chunks cur cur_len hlines hJ hK hchunks
    have hline : line.length ≤ limit := hlines line (by simp)
    have hrest : ∀ l ∈ rest, l.length ≤ limit :=
      fun l hl => hlines l (by simp [hl])
    unfold chunkGroupsAux
    by_cases hguard :
        (!cur.isEmpty && decide (cur_len + (line.length + 1) > limit)) = true
    · rw [if_pos hguard]
      have hcurne : cur ≠ [] := by
        intro hnil
        rw [hnil] at hguard
        simp at hguard
      have hstep := ih (chunks ++ [cur]) [line] line.length hrest
        (by rw [show joinNL [line] = line from rfl])
        (by rw [show joinNL [line] = line from rfl]; exact hline)
        (by
          intro g hg
          rcases List.mem_append.mp hg with hg1 | hg2
          · exact hchunks g hg1
          · rw [List.mem_singleton] at hg2
            subst hg2
            exact ⟨hcurne, hK⟩)
      refine ⟨hstep.1, ?_⟩
      rw [hstep.2]
      simp
    · rw [if_neg hguard]
      by_cases hcur : cur = []
      · subst hcur
        have hstep := ih chunks [line] (cur_len + (line.length + 1)) hrest
          (by rw [show joinNL [line] = line from rfl]; omega)
          (by rw [show joinNL [line] = line from rfl]; exact hline)
          hchunks
        refine ⟨hstep.1, ?_⟩
        rw [show ([] : List (List Char)) ++ [line] = [line] from rfl]
        rw [hstep.2]
        simp
      · have hlen : (joinNL (cur ++ [line])).length
            = (joinNL cur).length + 1 + line.length := by
          rw [joinNL_concat line cur hcur]
          simp [List.length_append]
          omega
        have hfit : cur_len + (line.length + 1) ≤ limit := by
          by_contra hlt
          apply hguard
          have hne : cur.isEmpty = false := by
            cases hq : cur.isEmpty
            · rfl
            · exact absurd (List.isEmpty_iff.mp hq) hcur
          rw [hne]
          simp
          omega
        have hstep := ih chunks (cur ++ [line]) (cur_len + (line.length + 1))
          hrest
          (by rw [hlen]; omega)
          (by rw [hlen]; omega)
          hchunks
        refine ⟨hstep.1, ?_⟩
        rw [hstep.2]
        simp

lemma chunk_linesAux_eq (limit : Nat) :
    ∀ (lines : List (List Char)) (groups : List (List (List Char)))
      (cur : List (List Char)) (cur_len : Nat),
      chunk_linesAux limit lines (groups.map joinNL) cur cur_len
        = (chunkGroupsAux limit lines groups cur cur_len).map joinNL := by
  intro lines
  induction lines with
  | nil =>
    intro groups cur cur_len
    unfold chunk_linesAux chunkGroupsAux
    by_cases hcur : cur.isEmpty = true
    · rw [if_pos hcur, if_pos hcur]
    · rw [if_neg hcur, if_neg hcur]
      simp
  | cons line rest ih =>
    intro groups cur cur_len
    unfold chunk_linesAux chunkGroupsAux
    by_cases hguard :
        (!cur.isEmpty && decide (cur_len + (line.length + 1) > limit)) = true
    · rw [if_pos hguard, if_pos hguard]
      have : (groups.map joinNL) ++ [joinNL cur] = (groups ++ [cur]).map joinNL := by
        simp
      rw [this]
      exact ih (groups ++ [cur]) [line] line.length
    · rw [if_neg hguard, if_neg hguard]
      exact ih groups (cur ++ [line]) (cur_len + (line.length + 1))

lemma chunk_lines_eq_groups (lines : List (List Char)) (limit : Nat) :
    chunk_lines lines limit = (chunkGroups limit lines).map joinNL := by
  unfold chunk_lines chunkGroups
  have := chunk_linesAux_eq limit lines [] [] 0
  simpa using this

/-- Claim C10, amended.  For every non-empty list of lines, each free
of embedded newlines and of length at most the limit, chunk_lines
returns a non-empty list of chunks, every chunk has length at most the
limit, and splitting each chunk on newline and concatenating in order
restores exactly the original lines.  (On the empty input the function
returns the empty list, and a line containing a newline is cut at that
newline on reconstruction — see the counterexample.) -/
theorem C10_chunk_lines (lines : List (List Char)) (limit : Nat)
    (h1 : lines ≠ [])
    (h2 : ∀ l ∈ lines, l.length ≤ limit)
    (h3 : ∀ l ∈ lines, '\n' ∉ l) :
    chunk_lines lines limit ≠ []
      ∧ (∀ c ∈ chunk_lines lines limit, c.length ≤ limit)
      ∧ ((chunk_lines lines limit).map splitNL).flatten = lines := by
  have hspec := chunkGroupsAux_spec limit lines [] [] 0 h2
    (by rw [show joinNL [] = [] from rfl]; simp)
    (by rw [show joinNL [] = [] from rfl]; simp)
    (by simp)
  have hflat : (chunkGroups limit lines).flatten = lines := by
    have := hspec.2
    simpa using this
  have heq := chunk_lines_eq_groups lines limit
  refine ⟨?_, ?_, ?_⟩
  · intro hc
    rw [heq] at hc
    have hg : chunkGroups limit lines = [] := by
      rcases hq : chunkGroups limit lines with _ | _
      · rfl
      · rw [hq] at hc
        simp at hc
    rw [hg] at hflat
    exact h1 (by simpa using hflat.symm)
  · intro c hc
    rw [heq] at hc
    rcases List.mem_map.mp hc with ⟨g, hg, hgc⟩
    rw [← hgc]
    exact ((hspec.1) g hg).2
  · rw [heq, List.map_map]
    have hid : ∀ g ∈ chunkGroups limit lines, (splitNL ∘ joinNL) g = g := by
      intro g hg
      have hne := ((hspec.1) g hg).1
      have hnl : ∀ p ∈ g, '\n' ∉ p := by
        intro p hp
        apply h3
        rw [← hflat]
        exact List.mem_flatten.mpr ⟨g, hg, hp⟩
      exact splitNL_joinNL g hne hnl
    rw [List.map_congr_left hid]
    simpa using hflat

/-- Claim C10, counterexample to the claim as stated: on the empty line
list chunk_lines returns the empty list (not a non-empty one), and a
single line containing an embedded newline is not reconstructed by
splitting the chunks on newline. -/
theorem C10_counterexample :
    chunk_lines [] DISCORD_MESSAGE_LIMIT = []
      ∧ ((chunk_lines [['a', '\n', 'b']] DISCORD_MESSAGE_LIMIT).map splitNL).flatten
          ≠ [['a', '\n', 'b']] := by
  constructor
  · rfl
  · decide

/-- Claim C10, witness: the amended theorem applied to a concrete
two-line input. -/
theorem C10_witness :
    chunk_lines [['h', 'i'], ['y', 'o']] DISCORD_MESSAGE_LIMIT ≠ []
      ∧ (∀ c ∈ chunk_lines [['h', 'i'], ['y', 'o']] DISCORD_MESSAGE_LIMIT,
          c.length ≤ DISCORD_MESSAGE_LIMIT)
      ∧ ((chunk_lines [['h', 'i'], ['y', 'o']] DISCORD_MESSAGE_LIMIT).map
          splitNL).flatten = [['h', 'i'], ['y', 'o']] :=
  C10_chunk_lines [['h', 'i'], ['y', 'o']] DISCORD_MESSAGE_LIMIT
    (by decide) (by decide) (by decide)

end FEC
